import Mathlib

/-!
# Verification of the ProtobankBankC auth-service core

A shallow embedding of the credential lifecycle and request-admission
subsystem of the auth service, together with proofs about the claims of
the natural-language specification.

Conventions:
* Wall-clock instants and durations are integers in nanoseconds
  (Go `time.Time` / `time.Duration` granularity).
* The HMAC-SHA256 signature of `golang-jwt/jwt/v5` is modelled
  symbolically: a signature is the pair (signed payload, signing key),
  and verification recomputes the pair and compares.  This captures
  exactly the behaviour the code relies on: a signature verifies with a
  key iff it was produced over the same payload with the same key.
* bcrypt digests are modelled symbolically in the same way: a digest
  remembers the plaintext it was derived from and its salt; verification
  compares plaintexts.  Distinct salts give distinct digests.
* Go strings are Lean `String`s; `len` on a Go string is the UTF-8 byte
  count, i.e. `String.utf8ByteSize`.
-/

deriving instance DecidableEq for Except

/-! ## Token engine (internal/utils/jwt.go) -/

/-- Nanoseconds per second (`time.Second`). -/
def nsPerSec : Int := 1000000000

/-- `jwt.NewNumericDate` truncates a wall-clock instant to whole seconds
(`jwt.TimePrecision = time.Second`).  For the positive instants of a real
clock this is floor division; `Int.ediv` (Euclidean division, the `/` of
`Int` here) agrees with floor for the positive divisor `nsPerSec`. -/
def numericDate (t : Int) : Int := t / nsPerSec

/-- `jwt.RegisteredClaims` as populated by `generateToken`: the three
`NumericDate` claims, stored in whole seconds. -/
structure RegisteredClaims where
  expiresAt : Int
  issuedAt : Int
  notBefore : Int
deriving DecidableEq, Repr

/-- `customClaims`: the custom fields plus the registered claims. -/
structure CustomClaims where
  userID : String
  email : String
  tokenType : String
  reg : RegisteredClaims
deriving DecidableEq, Repr

/-- Symbolic model of an HMAC-SHA256 signature over a serialized claims
payload: it is determined by the payload and the key, and verification
with key `k` succeeds iff the stored key equals `k`. -/
structure HmacSig where
  payload : CustomClaims
  key : String
deriving DecidableEq, Repr

/-- A signed, serialized JWT.  Two serialized tokens are bit-for-bit
equal iff their claims and signatures are equal (JSON marshalling of the
claims is deterministic). -/
structure SignedToken where
  claims : CustomClaims
  sig : HmacSig
deriving DecidableEq, Repr

/-- `TokenClaims`: the simplified claims returned by `ValidateToken`. -/
structure TokenClaims where
  userID : String
  email : String
  tokenType : String
deriving DecidableEq, Repr

/-- The claims `generateToken` builds: `expires_at = now + expiry`,
`issued_at = not_before = now`, each truncated to whole seconds by
`jwt.NewNumericDate`. -/
def genClaims (userID email tokenType : String) (expiry now : Int) :
    CustomClaims :=
  { userID := userID, email := email, tokenType := tokenType
    reg := { expiresAt := numericDate (now + expiry)
             issuedAt := numericDate now
             notBefore := numericDate now } }

/-- `generateToken(userID, email, tokenType, expiry, secret)` at wall
clock `now`.  Mirrors the input validation and claim construction of the
Go function; signing is the symbolic HMAC above (the signature's payload
is the very claims object that is serialized into the token). -/
def generateToken (userID email tokenType : String) (expiry : Int)
    (secret : String) (now : Int) : Except String SignedToken :=
  if userID = "" then .error "user ID cannot be empty"
  else if email = "" then .error "email cannot be empty"
  else if secret = "" then .error "secret cannot be empty"
  else if expiry ≤ 0 then .error "expiry must be positive"
  else
    .ok { claims := genClaims userID email tokenType expiry now
          sig := { payload := genClaims userID email tokenType expiry now
                   key := secret } }

/-- `GenerateAccessToken`. -/
def GenerateAccessToken (userID email : String) (expiry : Int)
    (secret : String) (now : Int) : Except String SignedToken :=
  generateToken userID email "access" expiry secret now

/-- `GenerateRefreshToken`. -/
def GenerateRefreshToken (userID email : String) (expiry : Int)
    (secret : String) (now : Int) : Except String SignedToken :=
  generateToken userID email "refresh" expiry secret now

/-- The failure cases of `ValidateToken`: the empty-secret guard, the
expiry case (error text "token has expired"), and every other parse /
signature / claims failure (error text "invalid token ...").  The
`tokenString == ""` guard of the Go function is not representable for a
structured token and corresponds to a malformed input outside this
model. -/
inductive TokenError where
  | emptySecret
  | expired
  | invalid
deriving DecidableEq, Repr

/-- `ValidateToken(tokenString, secret)` at wall clock `now`.  Mirrors
`jwt/v5` `ParseWithClaims`: the signature is verified first (a wrong key
yields a signature error, mapped to the generic invalid-token failure),
then the registered claims are validated: `exp` must be strictly in the
future (`now < exp`), `nbf` must not be in the future (`now ≥ nbf`); an
expired token yields the error text containing "token is expired", which
the Go wrapper maps to its dedicated expired failure. -/
def ValidateToken (tok : SignedToken) (secret : String) (now : Int) :
    Except TokenError TokenClaims :=
  if secret = "" then .error .emptySecret
  else if tok.sig = { payload := tok.claims, key := secret } then
    if tok.claims.reg.expiresAt * nsPerSec ≤ now then .error .expired
    else if now < tok.claims.reg.notBefore * nsPerSec then .error .invalid
    else .ok { userID := tok.claims.userID, email := tok.claims.email
               tokenType := tok.claims.tokenType }
  else .error .invalid

/-! ## Admission controller (internal/middleware/rate_limit.go) -/

/-- `client`: remaining budget and window start (`lastReset`). -/
structure Client where
  tokens : Int
  lastReset : Int
deriving DecidableEq, Repr

/-- `RateLimiter`: the per-IP client table plus configuration.  The Go
`map[string]*client` is modelled as a function to `Option Client`;
`limit` and `window` are immutable after construction. -/
structure RateLimiter where
  clients : String → Option Client
  limit : Int
  window : Int

/-- `NewRateLimiter` (without the background goroutine; its periodic
pass is the `cleanup` sweep modelled as an explicit step below). -/
def RateLimiter.new (limit window : Int) : RateLimiter :=
  { clients := fun _ => none, limit := limit, window := window }

/-- The get-or-create step of `allow`: a missing client is created with
a full budget and `lastReset = now`. -/
def getOrCreate (entry : Option Client) (limit now : Int) : Client :=
  match entry with
  | some cl => cl
  | none => { tokens := limit, lastReset := now }

/-- The window-expiry step of `allow`: when `now - lastReset > window`
the budget is restored to `limit` and the window restarts at `now`. -/
def resetIfExpired (window limit now : Int) (cl : Client) : Client :=
  if now - cl.lastReset > window then { tokens := limit, lastReset := now }
  else cl

/-- The admit/deny step of `allow`, acting on the current client record
`cl` (already created/reset): a positive budget admits the request and
decrements; otherwise the request is rejected and the record is stored
back unchanged.  Returns `(allowed, remaining, resetTime)` and the
updated limiter. -/
def RateLimiter.allowClient (rl : RateLimiter) (ip : String) (cl : Client) :
    (Bool × Int × Int) × RateLimiter :=
  if cl.tokens > 0 then
    ((true, cl.tokens - 1, cl.lastReset + rl.window),
      { rl with clients := fun k =>
          if k = ip then some { tokens := cl.tokens - 1, lastReset := cl.lastReset }
          else rl.clients k })
  else
    ((false, 0, cl.lastReset + rl.window),
      { rl with clients := fun k => if k = ip then some cl else rl.clients k })

/-- `allow(ip)` at wall clock `now`, composed exactly as the Go code:
get-or-create, lazy window reset, then admit/deny. -/
def RateLimiter.allow (rl : RateLimiter) (ip : String) (now : Int) :
    (Bool × Int × Int) × RateLimiter :=
  rl.allowClient ip
    (resetIfExpired rl.window rl.limit now
      (getOrCreate (rl.clients ip) rl.limit now))

/-- One pass of the `cleanup` goroutine at wall clock `now`: drops every
client idle for more than twice the window. -/
def RateLimiter.cleanup (rl : RateLimiter) (now : Int) : RateLimiter :=
  { rl with clients := fun k =>
      match rl.clients k with
      | some cl => if now - cl.lastReset > rl.window * 2 then none else some cl
      | none => none }

/-- A sequence of `allow` calls for one IP at the given instants,
collecting the results. -/
def allowRun (rl : RateLimiter) (ip : String) :
    List Int → List (Bool × Int × Int) × RateLimiter
  | [] => ([], rl)
  | t :: ts =>
    let r := rl.allow ip t
    let rest := allowRun r.2 ip ts
    (r.1 :: rest.1, rest.2)

/-- An operation observed by the rate limiter's shared state: an
`allow` call for some IP, or one pass of the cleanup sweep. -/
inductive RLOp where
  | req (ip : String) (now : Int)
  | sweep (now : Int)

/-- Apply one operation to the limiter state. -/
def RateLimiter.step (rl : RateLimiter) : RLOp → RateLimiter
  | .req ip now => (rl.allow ip now).2
  | .sweep now => rl.cleanup now

/-- Apply a sequence of operations to the limiter state. -/
def RateLimiter.run (rl : RateLimiter) (ops : List RLOp) : RateLimiter :=
  ops.foldl RateLimiter.step rl

/-- All stored budgets are non-negative. -/
def RateLimiter.Nonneg (rl : RateLimiter) : Prop :=
  ∀ k c, rl.clients k = some c → 0 ≤ c.tokens

/-! ## Go strings helpers

`strings.TrimSpace`, `strings.ToLower` and splitting are modelled over
the character list so that every definition evaluates inside the
kernel. -/

/-- `strings.TrimSpace`: drop leading and trailing whitespace. -/
def trimSpace (s : String) : String :=
  ⟨((s.toList.dropWhile Char.isWhitespace).reverse.dropWhile
      Char.isWhitespace).reverse⟩

/-- `strings.ToLower` (ASCII case mapping). -/
def toLowerStr (s : String) : String :=
  ⟨s.toList.map Char.toLower⟩

/-- Split a character list at every occurrence of `sep` (the splitting
underlying `mail.ParseAddress`'s local-part/domain separation). -/
def splitOnChar (sep : Char) : List Char → List (List Char)
  | [] => [[]]
  | c :: rest =>
    match splitOnChar sep rest with
    | [] => if c = sep then [[], [c]] else [[c]]
    | h :: t => if c = sep then [] :: h :: t else (c :: h) :: t

/-! ## Password policy engine (internal/utils/password.go) -/

/-- Symbolic bcrypt digest: `empty` is the Go empty string (the stripped
hash); `bcrypt plain salt` is a salted one-way digest of `plain`.  Two
digests of the same plaintext with different salts differ, and
verification succeeds exactly against the original plaintext. -/
inductive PasswordHash where
  | empty
  | bcrypt (plain : String) (salt : Nat)
deriving DecidableEq, Repr

/-- `HashPassword`: rejects empty input and input above bcrypt's
72-byte ceiling, otherwise digests with a fresh salt (drawn from
bcrypt's RNG; passed explicitly here). -/
def HashPassword (password : String) (salt : Nat) :
    Except String PasswordHash :=
  if password = "" then .error "password cannot be empty"
  else if 72 < password.utf8ByteSize then
    .error "password too long: maximum 72 bytes"
  else .ok (.bcrypt password salt)

/-- `ComparePasswords` (called `ComparePassword` at the service call
site): bcrypt verification; fails against the empty digest. -/
def ComparePasswords (hashedPassword : PasswordHash) (password : String) :
    Bool :=
  match hashedPassword with
  | .bcrypt plain _ => plain = password
  | .empty => false

/-- The deny-list of `internal/utils/password.go`. -/
def commonPasswords : List String :=
  ["password", "password123", "123456", "12345678", "qwerty", "qwerty123",
   "abc123", "monkey", "letmein", "welcome", "admin", "admin123"]

/-- The loop scanning for an ASCII uppercase letter. -/
def containsUpper (p : String) : Bool :=
  p.toList.any fun c => decide ('A' ≤ c) && decide (c ≤ 'Z')

/-- The loop scanning for an ASCII lowercase letter. -/
def containsLower (p : String) : Bool :=
  p.toList.any fun c => decide ('a' ≤ c) && decide (c ≤ 'z')

/-- The loop scanning for an ASCII digit. -/
def containsDigit (p : String) : Bool :=
  p.toList.any fun c => decide ('0' ≤ c) && decide (c ≤ '9')

/-- The fixed symbol set of `ValidatePasswordStrength`. -/
def specialChars : String := "!@#$%^&*()_+-=[]\x7b\x7d|;:,.<>?"

/-- The loop scanning for a symbol (`strings.ContainsRune`). -/
def containsSpecial (p : String) : Bool :=
  p.toList.any fun c => specialChars.toList.contains c

/-- `ValidatePasswordStrength`: the checks in source order, each
short-circuiting; `none` means the password is acceptable. -/
def ValidatePasswordStrength (password : String) : Option String :=
  if password.utf8ByteSize < 8 then
    some "password must be at least 8 characters long"
  else if 72 < password.utf8ByteSize then
    some "password too long: maximum 72 bytes"
  else if !containsUpper password then
    some "password must contain at least one uppercase letter"
  else if !containsLower password then
    some "password must contain at least one lowercase letter"
  else if !containsDigit password then
    some "password must contain at least one number"
  else if !containsSpecial password then
    some "password must contain at least one special character"
  else if toLowerStr password ∈ commonPasswords then
    some "password is too common, please choose a more unique password"
  else none

/-! ## Dates and the age check (internal/services/auth_service.go) -/

/-- A calendar date (`time.Time` at day granularity). -/
structure Date where
  year : Int
  month : Nat
  day : Nat
deriving DecidableEq, Repr

/-- Go's `time.Time` zero value is January 1 of year 1; `IsZero`. -/
def Date.isZero (d : Date) : Bool := d = ⟨1, 1, 1⟩

/-- Gregorian leap years, as used by `time.YearDay`. -/
def isLeapYear (y : Int) : Bool :=
  y % 4 = 0 && (y % 100 ≠ 0 || y % 400 = 0)

/-- Month lengths for a (non-)leap year. -/
def monthDays (leap : Bool) : List Nat :=
  [31, if leap then 29 else 28, 31, 30, 31, 30, 31, 31, 30, 31, 30, 31]

/-- `time.Time.YearDay`: the day of the year, 1-365 (366 in leap
years). -/
def yearDay (d : Date) : Nat :=
  ((monthDays (isLeapYear d.year)).take (d.month - 1)).sum + d.day

/-! ## Credential service (internal/services/auth_service.go) -/

/-- `pkg/errors.AppError`, identified by its constructor (`Err` field /
HTTP status) and message: `NewBadRequest`, `NewUnauthorized`,
`NewForbidden`, `NewNotFound`, `NewConflict`, and the `fmt.Errorf`
wrapped internal failures. -/
inductive AppError where
  | badRequest (msg : String)
  | unauthorized (msg : String)
  | forbidden (msg : String)
  | notFound (msg : String)
  | conflict (msg : String)
  | internal (msg : String)
deriving DecidableEq, Repr

/-- `models.User` (plus the `Region` field the service populates). -/
structure User where
  id : String
  email : String
  phone : String
  passwordHash : PasswordHash
  firstName : String
  lastName : String
  dateOfBirth : Date
  addressLine1 : String
  addressLine2 : String
  city : String
  region : String
  postcode : String
  country : String
  kycStatus : String
  isActive : Bool
  createdAt : Int
  updatedAt : Int
deriving DecidableEq, Repr

/-- `models.RegisterRequest`. -/
structure RegisterRequest where
  email : String
  phone : String
  password : String
  firstName : String
  lastName : String
  dateOfBirth : Date
  addressLine1 : String
  addressLine2 : String
  city : String
  region : String
  postcode : String
  country : String
deriving DecidableEq, Repr

/-- `models.LoginResponse`: both tokens plus the sanitized user. -/
structure LoginResponse where
  accessToken : SignedToken
  refreshToken : SignedToken
  tokenType : String
  expiresIn : Int
  user : User
deriving DecidableEq, Repr

/-- `models.RefreshTokenResponse`: a new access token only — the type
has no refresh-token field. -/
structure RefreshTokenResponse where
  accessToken : SignedToken
  tokenType : String
  expiresIn : Int
deriving DecidableEq, Repr

/-- The repository (`UserRepository`) as the service observes it:
lookups return the record or a not-found failure, and `Create` either
succeeds or fails. -/
structure UserStore where
  getByEmail : String → Option User
  getById : String → Option User
  createOk : Bool

/-- `AuthService` configuration. -/
structure AuthService where
  jwtSecret : String
  accessTokenDuration : Int
  refreshTokenDuration : Int

/-- The deny-list of `internal/services/auth_service.go` (a distinct,
slightly different list from the one in `utils/password.go`). -/
def commonPasswordsService : List String :=
  ["password", "password123", "12345678", "qwerty", "abc123", "password1",
   "password123!", "welcome", "welcome123", "admin", "admin123", "letmein",
   "monkey", "1234567890"]

/-- The symbol class of the service's `hasSpecial` regex. -/
def serviceSpecialChars : List Char :=
  ['!', '@', '#', '$', '%', '^', '&', '*', '(', ')', '_', '+', '-', '=',
   '[', ']', '\x7b', '\x7d', ';', '\x27', ':', '\x22', '\\', '|', ',', '.',
   '<', '>', '/', '?']

/-- `validatePassword` of the service: length bounds, then the regex
checks in source order (uppercase, lowercase, digit, symbol), then the
deny-list. -/
def validatePassword (password : String) : Option AppError :=
  if password.utf8ByteSize < 8 then
    some (.badRequest "password must be at least 8 characters long")
  else if 72 < password.utf8ByteSize then
    some (.badRequest "password too long: maximum 72 characters")
  else if !containsUpper password then
    some (.badRequest "password must contain at least one uppercase letter")
  else if !containsLower password then
    some (.badRequest "password must contain at least one lowercase letter")
  else if !containsDigit password then
    some (.badRequest "password must contain at least one number")
  else if !(password.toList.any fun c => serviceSpecialChars.contains c) then
    some (.badRequest "password must contain at least one special character")
  else if toLowerStr password ∈ commonPasswordsService then
    some (.badRequest
      "password is too common, please choose a stronger password")
  else none

/-- `validateRegistrationRequest` at registration date `today`: required
fields, then the age check via year difference and `YearDay`
comparison. -/
def validateRegistrationRequest (req : RegisterRequest) (today : Date) :
    Option AppError :=
  if req.email = "" then some (.badRequest "email is required")
  else if req.password = "" then some (.badRequest "password is required")
  else if req.firstName = "" then some (.badRequest "first name is required")
  else if req.lastName = "" then some (.badRequest "last name is required")
  else if req.dateOfBirth.isZero then
    some (.badRequest "date of birth is required")
  else if req.addressLine1 = "" then
    some (.badRequest "address line 1 is required")
  else if req.city = "" then some (.badRequest "city is required")
  else if req.postcode = "" then some (.badRequest "postcode is required")
  else if req.country = "" then some (.badRequest "country is required")
  else
    let age := today.year - req.dateOfBirth.year
    if age < 18 then
      some (.badRequest "you must be at least 18 years old to register")
    else
      let age2 := if yearDay today < yearDay req.dateOfBirth then age - 1
        else age
      if age2 < 18 then
        some (.badRequest "you must be at least 18 years old to register")
      else none

/-- Modelled from the spec: "validates age ≥ 18 computed from date of
birth with correct leap/day-of-year handling" — the applicant is at
least 18 exactly when the registration day is on or after the 18th
anniversary of the date of birth (comparing month/day
lexicographically). -/
def spec_isAtLeast18 (dob today : Date) : Bool :=
  (dob.year + 18 < today.year) ||
  (dob.year + 18 = today.year &&
    (dob.month < today.month ||
      (dob.month = today.month && dob.day ≤ today.day)))

/-- Simplified model of `net/mail.ParseAddress` on bare addresses: one
"@" separating a non-empty local part from a non-empty domain, with no
whitespace; returns the parsed address. -/
def mailParseAddress (e : String) : Option String :=
  let parts := (splitOnChar '@' e.toList).map fun l => (⟨l⟩ : String)
  if parts.length = 2 ∧ (∀ part ∈ parts, part ≠ "") ∧
      ¬ e.toList.any (fun c => c = ' ') then some e
  else none

/-- `validateEmail`: trim, reject empty, parse, reject embedded spaces
and over-long addresses. -/
def validateEmail (email : String) : Option AppError :=
  let trimmed := trimSpace email
  if trimmed = "" then some (.badRequest "email cannot be empty")
  else
    match mailParseAddress trimmed with
    | none => some (.badRequest "invalid email format")
    | some addr =>
      if addr.toList.any (fun c => c = ' ') then
        some (.badRequest "invalid email format")
      else if 254 < addr.utf8ByteSize then some (.badRequest "email too long")
      else none

/-- Hex digit test for `uuid.Parse`. -/
def isHexDigit (c : Char) : Bool :=
  (decide ('0' ≤ c) && decide (c ≤ '9')) ||
  (decide ('a' ≤ c) && decide (c ≤ 'f')) ||
  (decide ('A' ≤ c) && decide (c ≤ 'F'))

/-- Model of `uuid.Parse` restricted to the canonical
8-4-4-4-12 hyphenated hex form. -/
def uuidParse (s : String) : Option String :=
  let cs := s.toList
  if cs.length = 36 ∧
      ((List.range 36).all fun i =>
        if i = 8 ∨ i = 13 ∨ i = 18 ∨ i = 23 then
          decide (cs.getD i ' ' = '-')
        else isHexDigit (cs.getD i ' ')) then some s
  else none

/-- `Register`: field/age validation, email and password validation,
duplicate check, hash, persist, and return the record with the hash
stripped.  `today` is the registration date, `now` the wall clock for
the persisted timestamps, `salt` bcrypt's salt, `newId` the freshly
generated UUID. -/
def Register (s : AuthService) (store : UserStore) (req : RegisterRequest)
    (today : Date) (now : Int) (salt : Nat) (newId : String) :
    Except AppError User :=
  match validateRegistrationRequest req today with
  | some e => .error e
  | none =>
  match validateEmail req.email with
  | some e => .error e
  | none =>
  match validatePassword req.password with
  | some e => .error e
  | none =>
  if (store.getByEmail req.email).isSome then
    .error (.conflict "user with this email already exists")
  else
    match HashPassword req.password salt with
    | .error _ => .error (.internal "failed to hash password")
    | .ok passwordHash =>
      let user : User :=
        { id := newId
          email := toLowerStr (trimSpace req.email)
          phone := req.phone
          passwordHash := passwordHash
          firstName := req.firstName
          lastName := req.lastName
          dateOfBirth := req.dateOfBirth
          addressLine1 := req.addressLine1
          addressLine2 := req.addressLine2
          city := req.city
          region := req.region
          postcode := req.postcode
          country := req.country
          kycStatus := "pending"
          isActive := true
          createdAt := now
          updatedAt := now }
      if store.createOk then .ok { user with passwordHash := .empty }
      else .error (.internal "failed to create user")

/-- `Login`: required-input guards, lookup by normalized email (a miss
is reported as the generic invalid-credentials failure), active-account
check, password verification (a mismatch is reported identically to a
miss), then token issuance and the sanitized response. -/
def Login (s : AuthService) (store : UserStore) (email password : String)
    (now : Int) : Except AppError LoginResponse :=
  if email = "" then .error (.badRequest "email is required")
  else if password = "" then .error (.badRequest "password is required")
  else
    match store.getByEmail (toLowerStr (trimSpace email)) with
    | none => .error (.unauthorized "invalid email or password")
    | some user =>
      if !user.isActive then .error (.forbidden "account is inactive")
      else if !ComparePasswords user.passwordHash password then
        .error (.unauthorized "invalid email or password")
      else
        match generateToken user.id user.email "access"
            s.accessTokenDuration s.jwtSecret now with
        | .error _ => .error (.internal "failed to generate access token")
        | .ok accessToken =>
          match generateToken user.id user.email "refresh"
              s.refreshTokenDuration s.jwtSecret now with
          | .error _ => .error (.internal "failed to generate refresh token")
          | .ok refreshTok =>
            .ok { accessToken := accessToken
                  refreshToken := refreshTok
                  tokenType := "Bearer"
                  expiresIn := s.accessTokenDuration / nsPerSec
                  user := { user with passwordHash := .empty } }

/-- `RefreshToken`: validate the presented token, require the refresh
class, re-load the subject, require it active, and issue a new access
token only.  A `none` input is the Go empty-string guard. -/
def RefreshToken (s : AuthService) (store : UserStore)
    (refreshToken : Option SignedToken) (now : Int) :
    Except AppError RefreshTokenResponse :=
  match refreshToken with
  | none => .error (.badRequest "refresh token is required")
  | some tok =>
    match ValidateToken tok s.jwtSecret now with
    | .error _ => .error (.unauthorized "invalid or expired refresh token")
    | .ok claims =>
      if claims.tokenType ≠ "refresh" then
        .error (.unauthorized "invalid token type")
      else
        match uuidParse claims.userID with
        | none => .error (.unauthorized "invalid user ID in token")
        | some userID =>
          match store.getById userID with
          | none => .error (.notFound "user not found")
          | some user =>
            if !user.isActive then .error (.forbidden "account is inactive")
            else
              match generateToken user.id user.email "access"
                  s.accessTokenDuration s.jwtSecret now with
              | .error _ =>
                .error (.internal "failed to generate access token")
              | .ok accessToken =>
                .ok { accessToken := accessToken
                      tokenType := "Bearer"
                      expiresIn := s.accessTokenDuration / nsPerSec }

/-- `ValidateAccessToken`: symmetric to `RefreshToken` but requires the
access class and returns the sanitized subject record. -/
def ValidateAccessToken (s : AuthService) (store : UserStore)
    (accessToken : Option SignedToken) (now : Int) : Except AppError User :=
  match accessToken with
  | none => .error (.badRequest "access token is required")
  | some tok =>
    match ValidateToken tok s.jwtSecret now with
    | .error _ => .error (.unauthorized "invalid or expired access token")
    | .ok claims =>
      if claims.tokenType ≠ "access" then
        .error (.unauthorized "invalid token type")
      else
        match uuidParse claims.userID with
        | none => .error (.unauthorized "invalid user ID in token")
        | some userID =>
          match store.getById userID with
          | none => .error (.notFound "user not found")
          | some user =>
            if !user.isActive then .error (.forbidden "account is inactive")
            else .ok { user with passwordHash := .empty }

/-! ## Concrete fixtures for witnesses and counterexamples -/

/-- A canonical UUID accepted by `uuidParse`. -/
def uuidSample : String := "123e4567-e89b-12d3-a456-426614174000"

/-- A service configuration: 15-minute access tokens, 7-day refresh
tokens. -/
def svc0 : AuthService :=
  { jwtSecret := "secret"
    accessTokenDuration := 900 * nsPerSec
    refreshTokenDuration := 604800 * nsPerSec }

/-- An active stored user whose password is "Correct1!". -/
def activeUser : User :=
  { id := uuidSample, email := "a@b.com", phone := "+10000000000"
    passwordHash := .bcrypt "Correct1!" 0
    firstName := "Ada", lastName := "Byron"
    dateOfBirth := ⟨1990, 1, 1⟩
    addressLine1 := "1 Main St", addressLine2 := "", city := "London"
    region := "", postcode := "E1", country := "GB"
    kycStatus := "pending", isActive := true, createdAt := 0, updatedAt := 0 }

/-- The same record, administratively deactivated. -/
def inactiveUser : User := { activeUser with isActive := false }

/-- A store with no records. -/
def storeEmpty : UserStore :=
  { getByEmail := fun _ => none, getById := fun _ => none, createOk := true }

/-- A store holding `activeUser`. -/
def storeWithActive : UserStore :=
  { getByEmail := fun e => if e = "a@b.com" then some activeUser else none
    getById := fun i => if i = uuidSample then some activeUser else none
    createOk := true }

/-- A store holding `inactiveUser`. -/
def storeWithInactive : UserStore :=
  { getByEmail := fun e => if e = "a@b.com" then some inactiveUser else none
    getById := fun i => if i = uuidSample then some inactiveUser else none
    createOk := true }

/-- A registration request, valid except possibly for the date of
birth. -/
def c4req : RegisterRequest :=
  { email := "alice@example.com", phone := "+10000000000"
    password := "Str0ng!Pass", firstName := "Alice", lastName := "Smith"
    dateOfBirth := ⟨2008, 3, 1⟩
    addressLine1 := "2 High St", addressLine2 := "", city := "Leeds"
    region := "", postcode := "LS1", country := "GB" }

/-- An access-class token for `uuidSample`, signed with `svc0`'s
secret, valid at time 0. -/
def c6accessClaims : CustomClaims :=
  { userID := uuidSample, email := "a@b.com", tokenType := "access"
    reg := { expiresAt := 900, issuedAt := 0, notBefore := 0 } }

/-- The signed access token. -/
def c6accessTok : SignedToken :=
  { claims := c6accessClaims, sig := { payload := c6accessClaims, key := "secret" } }

/-- A refresh-class token for `uuidSample`, valid at time 0. -/
def c6refreshClaims : CustomClaims :=
  { userID := uuidSample, email := "a@b.com", tokenType := "refresh"
    reg := { expiresAt := 604800, issuedAt := 0, notBefore := 0 } }

/-- The signed refresh token. -/
def c6refreshTok : SignedToken :=
  { claims := c6refreshClaims, sig := { payload := c6refreshClaims, key := "secret" } }

/-- The concrete successful refresh response. -/
def c6resp : RefreshTokenResponse :=
  (RefreshToken svc0 storeWithActive (some c6refreshTok) 0).toOption.getD
    ⟨c6refreshTok, "", 0⟩

/-- A registration request with an adult date of birth. -/
def c9req : RegisterRequest := { c4req with dateOfBirth := ⟨1990, 1, 1⟩ }

/-- The user record a successful registration returns. -/
def c9regUser : User :=
  (Register svc0 storeEmpty c9req ⟨2026, 1, 2⟩ 0 7 uuidSample).toOption.getD
    activeUser

/-- The response a successful login returns. -/
def c9loginResp : LoginResponse :=
  (Login svc0 storeWithActive "a@b.com" "Correct1!" 0).toOption.getD
    ⟨c6accessTok, c6refreshTok, "", 0, activeUser⟩

/-- The user record a successful access-token validation returns. -/
def c9valUser : User :=
  (ValidateAccessToken svc0 storeWithActive (some c6accessTok) 0).toOption.getD
    activeUser

/-! ## Theorems -/
/-- Inversion: a successful `generateToken` call returns exactly the
token built from `genClaims`, signed with the supplied secret. -/
theorem generateToken_ok_eq {userID email tokenType secret : String}
    {expiry now : Int} {tok : SignedToken}
    (h : generateToken userID email tokenType expiry secret now = .ok tok) :
    tok = { claims := genClaims userID email tokenType expiry now
            sig := { payload := genClaims userID email tokenType expiry now
                     key := secret } } := by
  unfold generateToken at h
  split at h
  · exact Except.noConfusion h
  split at h
  · exact Except.noConfusion h
  split at h
  · exact Except.noConfusion h
  split at h
  · exact Except.noConfusion h
  exact (Except.ok.injEq _ _ ▸ h).symm

/-- C1: a token issued by `generateToken` with non-empty subject, email
and secret and positive ttl, validated with the same secret at an
instant `tVal` not earlier than issuance, succeeds with the original
subject, email and token class while `tVal` is strictly before the
token's `expires_at` claim; fails with the expired error once `tVal` is
at or after `expires_at`; and fails with the generic invalid-token error
under any different (non-empty) secret. -/
theorem tokenEngine_roundtrip (userID email tokenType secret secret2 : String)
    (ttl tIss tVal : Int) (tok : SignedToken)
    (huid : userID ≠ "") (hemail : email ≠ "") (hsecret : secret ≠ "")
    (httl : 0 < ttl) (hle : tIss ≤ tVal)
    (hgen : generateToken userID email tokenType ttl secret tIss = .ok tok) :
    (tVal < tok.claims.reg.expiresAt * nsPerSec →
      ValidateToken tok secret tVal = .ok ⟨userID, email, tokenType⟩) ∧
    (tok.claims.reg.expiresAt * nsPerSec ≤ tVal →
      ValidateToken tok secret tVal = .error .expired) ∧
    (secret2 ≠ secret → secret2 ≠ "" →
      ValidateToken tok secret2 tVal = .error .invalid) := by
  have htok := generateToken_ok_eq hgen
  subst htok
  refine ⟨fun hexp => ?_, fun hexp => ?_, fun hne hne2 => ?_⟩
  · unfold ValidateToken
    rw [if_neg hsecret, if_pos rfl, if_neg (by omega), if_neg ?nbf]
    · rfl
    case nbf =>
      simp only [genClaims, numericDate, nsPerSec] at *
      omega
  · unfold ValidateToken
    rw [if_neg hsecret, if_pos rfl, if_pos hexp]
  · unfold ValidateToken
    rw [if_neg hne2, if_neg fun h => hne (congrArg HmacSig.key h).symm]

/-- Witness for C1 at a concrete token: issued at `t = 0` with a 2-second
ttl and secret "s"; validated at 1s it succeeds, at 2s it is expired, and
under secret "x" it is invalid. -/
theorem tokenEngine_roundtrip_witness :
    ValidateToken ⟨genClaims "u" "e" "access" (2 * nsPerSec) 0,
      ⟨genClaims "u" "e" "access" (2 * nsPerSec) 0, "s"⟩⟩ "s" nsPerSec =
        .ok ⟨"u", "e", "access"⟩ ∧
    ValidateToken ⟨genClaims "u" "e" "access" (2 * nsPerSec) 0,
      ⟨genClaims "u" "e" "access" (2 * nsPerSec) 0, "s"⟩⟩ "s" (2 * nsPerSec) =
        .error .expired ∧
    ValidateToken ⟨genClaims "u" "e" "access" (2 * nsPerSec) 0,
      ⟨genClaims "u" "e" "access" (2 * nsPerSec) 0, "s"⟩⟩ "x" nsPerSec =
        .error .invalid := by
  have h1 := tokenEngine_roundtrip "u" "e" "access" "s" "x" (2 * nsPerSec) 0
    nsPerSec ⟨genClaims "u" "e" "access" (2 * nsPerSec) 0,
      ⟨genClaims "u" "e" "access" (2 * nsPerSec) 0, "s"⟩⟩
    (by decide) (by decide) (by decide) (by decide) (by decide) (by decide)
  have h2 := tokenEngine_roundtrip "u" "e" "access" "s" "x" (2 * nsPerSec) 0
    (2 * nsPerSec) ⟨genClaims "u" "e" "access" (2 * nsPerSec) 0,
      ⟨genClaims "u" "e" "access" (2 * nsPerSec) 0, "s"⟩⟩
    (by decide) (by decide) (by decide) (by decide) (by decide) (by decide)
  exact ⟨h1.1 (by decide), h2.2.1 (by decide), h1.2.2 (by decide) (by decide)⟩

/-- C7 counterexample: issuance instants 0 ns and 1 ns are different
instants separated by a positive amount of time, yet the two issued
tokens are identical, because `jwt.NewNumericDate` truncates `issued_at`
to whole seconds. -/
theorem generateToken_sameSecond_collision :
    (0 : Int) ≠ 1 ∧
    generateToken "u" "e" "access" nsPerSec "s" 0 =
      generateToken "u" "e" "access" nsPerSec "s" 1 := by
  exact ⟨by decide, by decide⟩

/-- C7 (amended): two tokens issued for the same subject at instants
that fall in different whole seconds (so that their truncated
`issued_at` claims differ) are different tokens. -/
theorem generateToken_distinct_seconds (userID email tokenType secret : String)
    (ttl t1 t2 : Int) (tok1 tok2 : SignedToken)
    (h1 : generateToken userID email tokenType ttl secret t1 = .ok tok1)
    (h2 : generateToken userID email tokenType ttl secret t2 = .ok tok2)
    (hsec : numericDate t1 ≠ numericDate t2) :
    tok1 ≠ tok2 := by
  have e1 := generateToken_ok_eq h1
  have e2 := generateToken_ok_eq h2
  intro heq
  apply hsec
  have : tok1.claims.reg.issuedAt = tok2.claims.reg.issuedAt := by rw [heq]
  rw [e1, e2] at this
  simpa [genClaims] using this

/-- Witness for the amended C7: issuance at 0 s and at 1 s gives two
distinct tokens. -/
theorem generateToken_distinct_seconds_witness :
    (⟨genClaims "u" "e" "access" nsPerSec 0,
        ⟨genClaims "u" "e" "access" nsPerSec 0, "s"⟩⟩ : SignedToken) ≠
      ⟨genClaims "u" "e" "access" nsPerSec nsPerSec,
        ⟨genClaims "u" "e" "access" nsPerSec nsPerSec, "s"⟩⟩ :=
  generateToken_distinct_seconds "u" "e" "access" "s" nsPerSec 0 nsPerSec _ _
    rfl rfl (by decide)

/-- An `allow` call for an existing client within its window skips the
get-or-create and reset steps. -/
theorem allow_existing {rl : RateLimiter} {ip : String} {now : Int}
    {c : Client} (hc : rl.clients ip = some c)
    (hw : now - c.lastReset ≤ rl.window) :
    rl.allow ip now = rl.allowClient ip c := by
  unfold RateLimiter.allow
  rw [hc]
  simp only [getOrCreate]
  unfold resetIfExpired
  rw [if_neg (by omega)]

/-- An `allow` call for an existing client past its window runs on a
freshly reset record. -/
theorem allow_reset {rl : RateLimiter} {ip : String} {now : Int}
    {c : Client} (hc : rl.clients ip = some c)
    (hw : now - c.lastReset > rl.window) :
    rl.allow ip now = rl.allowClient ip { tokens := rl.limit, lastReset := now } := by
  unfold RateLimiter.allow
  rw [hc]
  simp only [getOrCreate]
  unfold resetIfExpired
  rw [if_pos (by omega)]

/-- A first `allow` call for an unknown client runs on a fresh record
with a full budget (the reset test never fires for it when the window is
non-negative). -/
theorem allow_fresh {rl : RateLimiter} {ip : String} {now : Int}
    (hc : rl.clients ip = none) (hW : 0 ≤ rl.window) :
    rl.allow ip now = rl.allowClient ip { tokens := rl.limit, lastReset := now } := by
  unfold RateLimiter.allow
  rw [hc]
  simp only [getOrCreate, resetIfExpired]
  rw [if_neg (by omega)]

/-- Index shift for the per-call result formula. -/
theorem allowResult_shift (c t0 W : Int) :
    ((fun i : Nat => if (i : Int) < c then ((true : Bool), c - 1 - (i : Int), t0 + W)
        else (false, 0, t0 + W)) ∘ Nat.succ) =
      fun i : Nat => if (i : Int) < c - 1 then ((true : Bool), c - 1 - 1 - (i : Int), t0 + W)
        else (false, 0, t0 + W) := by
  funext i
  simp only [Function.comp_apply, Nat.cast_succ]
  by_cases h : (i : Int) < c - 1
  · rw [if_pos h, if_pos (by omega)]
    simp only [Prod.mk.injEq, true_and, and_true]
    omega
  · rw [if_neg h, if_neg (by omega)]

/-- Behaviour of a run of `allow` calls for one client, all within the
window that started at `t0`: the i-th call is admitted with remaining
budget `c - 1 - i` while the budget lasts, rejected with `remaining = 0`
afterwards; `resetTime` is always `t0 + window`; the window start never
moves and the final budget is `c` minus the admitted calls, floored at
zero. -/
theorem allowRun_in_window (ip : String) :
    ∀ (ts : List Int) (rl : RateLimiter) (c t0 : Int),
      rl.clients ip = some ⟨c, t0⟩ → 0 ≤ c →
      (∀ t ∈ ts, t - t0 ≤ rl.window) →
      (allowRun rl ip ts).1 =
        (List.range ts.length).map (fun i : Nat =>
          if (i : Int) < c then ((true : Bool), c - 1 - (i : Int), t0 + rl.window)
          else (false, 0, t0 + rl.window)) ∧
      (allowRun rl ip ts).2.clients ip =
        some ⟨if c ≤ (ts.length : Int) then 0 else c - ts.length, t0⟩ ∧
      (allowRun rl ip ts).2.limit = rl.limit ∧
      (allowRun rl ip ts).2.window = rl.window
  | [], rl, c, t0, hc, hnn, _ => by
    refine ⟨by simp [allowRun], ?_, rfl, rfl⟩
    simp only [allowRun, List.length_nil, Nat.cast_zero, hc]
    congr 2
    omega
  | t :: ts, rl, c, t0, hc, hnn, hts => by
    have hw : t - t0 ≤ rl.window := hts t (by simp)
    have hstep := allow_existing hc hw
    by_cases hpos : 0 < c
    · have hcl : ((rl.allow ip t).2).clients ip = some ⟨c - 1, t0⟩ := by
        rw [hstep]
        unfold RateLimiter.allowClient
        rw [if_pos hpos]
        simp
      have hlim : ((rl.allow ip t).2).limit = rl.limit := by
        rw [hstep]; unfold RateLimiter.allowClient
        split <;> rfl
      have hwin : ((rl.allow ip t).2).window = rl.window := by
        rw [hstep]; unfold RateLimiter.allowClient
        split <;> rfl
      have ih := allowRun_in_window ip ts ((rl.allow ip t).2) (c - 1) t0 hcl
        (by omega) (by rw [hwin]; exact fun s hs => hts s (by simp [hs]))
      have hres : (rl.allow ip t).1 = (true, c - 1, t0 + rl.window) := by
        rw [hstep]; unfold RateLimiter.allowClient
        rw [if_pos hpos]
      refine ⟨?_, ?_, ?_, ?_⟩
      · show ((rl.allow ip t).1 :: (allowRun (rl.allow ip t).2 ip ts).1) = _
        rw [hres, ih.1, List.length_cons, List.range_succ_eq_map,
          List.map_cons, List.map_map, allowResult_shift, hwin]
        congr 1
        rw [if_pos (by exact_mod_cast hpos)]
        simp only [Prod.mk.injEq, true_and, and_true]
        omega
      · show (allowRun (rl.allow ip t).2 ip ts).2.clients ip = _
        rw [ih.2.1]
        congr 2
        simp only [List.length_cons]
        push_cast
        omega
      · show (allowRun (rl.allow ip t).2 ip ts).2.limit = rl.limit
        rw [ih.2.2.1, hlim]
      · show (allowRun (rl.allow ip t).2 ip ts).2.window = rl.window
        rw [ih.2.2.2, hwin]
    · have hc0 : c = 0 := by omega
      subst hc0
      have hcl : ((rl.allow ip t).2).clients ip = some ⟨0, t0⟩ := by
        rw [hstep]
        unfold RateLimiter.allowClient
        rw [if_neg hpos]
        simp
      have hlim : ((rl.allow ip t).2).limit = rl.limit := by
        rw [hstep]; unfold RateLimiter.allowClient
        split <;> rfl
      have hwin : ((rl.allow ip t).2).window = rl.window := by
        rw [hstep]; unfold RateLimiter.allowClient
        split <;> rfl
      have ih := allowRun_in_window ip ts ((rl.allow ip t).2) 0 t0 hcl
        le_rfl (by rw [hwin]; exact fun s hs => hts s (by simp [hs]))
      have hres : (rl.allow ip t).1 = (false, 0, t0 + rl.window) := by
        rw [hstep]; unfold RateLimiter.allowClient
        rw [if_neg hpos]
      refine ⟨?_, ?_, ?_, ?_⟩
      · show ((rl.allow ip t).1 :: (allowRun (rl.allow ip t).2 ip ts).1) = _
        rw [hres, ih.1, List.length_cons, List.range_succ_eq_map,
          List.map_cons, List.map_map, allowResult_shift, hwin]
        congr 1
      · show (allowRun (rl.allow ip t).2 ip ts).2.clients ip = _
        rw [ih.2.1, if_pos (by omega : (0 : Int) ≤ (ts.length : Int)),
          if_pos (by push_cast; omega : (0 : Int) ≤ ((t :: ts).length : Int))]
      · show (allowRun (rl.allow ip t).2 ip ts).2.limit = rl.limit
        rw [ih.2.2.1, hlim]
      · show (allowRun (rl.allow ip t).2 ip ts).2.window = rl.window
        rw [ih.2.2.2, hwin]

/-- C2: for a fresh client key under limit `N > 0` and window `W ≥ 0`,
a run of `N + 1` calls all lying within one window of the first call
(made at `t0`, the window start) admits the first `N` with strictly
decreasing remaining budgets `N-1, ..., 0`, rejects the `(N+1)`-th with
`reset_at = t0 + W`, and a subsequent call made more than `W` after `t0`
is admitted with the budget fully restored (`remaining = N - 1`). -/
theorem admission_window (N : Nat) (W t0 t : Int) (rest : List Int) (ip : String)
    (hN : 0 < N) (hW : 0 ≤ W)
    (hrest : ∀ s ∈ rest, t0 ≤ s ∧ s - t0 ≤ W)
    (hlen : rest.length = N)
    (ht : t - t0 > W) :
    (allowRun (RateLimiter.new N W) ip (t0 :: rest)).1 =
      (List.range (N + 1)).map (fun i : Nat =>
        if (i : Int) < (N : Int) then ((true : Bool), (N : Int) - 1 - (i : Int), t0 + W)
        else (false, 0, t0 + W)) ∧
    ((allowRun (RateLimiter.new N W) ip (t0 :: rest)).2.allow ip t).1 =
      (true, (N : Int) - 1, t + W) := by
  have hfresh : (RateLimiter.new (N : Int) W).clients ip = none := rfl
  have hstep := @allow_fresh (RateLimiter.new (N : Int) W) ip t0 hfresh hW
  have hcl : (((RateLimiter.new (N : Int) W).allow ip t0).2).clients ip =
      some ⟨(N : Int) - 1, t0⟩ := by
    rw [hstep]
    unfold RateLimiter.allowClient
    rw [if_pos (by show (0 : Int) < (N : Int); exact_mod_cast hN)]
    simp [RateLimiter.new]
  have hwin : (((RateLimiter.new (N : Int) W).allow ip t0).2).window = W := by
    rw [hstep]; unfold RateLimiter.allowClient
    split <;> rfl
  have hres : ((RateLimiter.new (N : Int) W).allow ip t0).1 =
      (true, (N : Int) - 1, t0 + W) := by
    rw [hstep]; unfold RateLimiter.allowClient
    rw [if_pos (by show (0 : Int) < (N : Int); exact_mod_cast hN)]
    rfl
  have ih := allowRun_in_window ip rest (((RateLimiter.new (N : Int) W).allow ip t0).2)
    ((N : Int) - 1) t0 hcl (by omega)
    (by rw [hwin]; exact fun s hs => (hrest s hs).2)
  constructor
  · show (((RateLimiter.new (N : Int) W).allow ip t0).1 ::
      (allowRun ((RateLimiter.new (N : Int) W).allow ip t0).2 ip rest).1) = _
    rw [hres, ih.1, hwin, hlen, List.range_succ_eq_map, List.map_cons,
      List.map_map, allowResult_shift]
    congr 1
    rw [if_pos (by exact_mod_cast hN)]
    simp only [Prod.mk.injEq, true_and, and_true]
    omega
  · show ((allowRun ((RateLimiter.new (N : Int) W).allow ip t0).2 ip rest).2.allow ip t).1 = _
    have hfin := ih.2.1
    have hfw := ih.2.2.2
    have hfl := ih.2.2.1
    have hlimNew : (((RateLimiter.new (N : Int) W).allow ip t0).2).limit = (N : Int) := by
      rw [hstep]; unfold RateLimiter.allowClient
      split <;> rfl
    have hrw : (allowRun ((RateLimiter.new (N : Int) W).allow ip t0).2 ip rest).2.allow ip t =
        (allowRun ((RateLimiter.new (N : Int) W).allow ip t0).2 ip rest).2.allowClient ip
          { tokens := (allowRun ((RateLimiter.new (N : Int) W).allow ip t0).2 ip rest).2.limit
            lastReset := t } := by
      refine allow_reset hfin ?_
      rw [hfw, hwin]
      exact ht
    rw [hrw]
    unfold RateLimiter.allowClient
    rw [if_pos (by rw [hfl, hlimNew]
                   show (0 : Int) < (N : Int)
                   exact_mod_cast hN)]
    show ((true : Bool),
        (allowRun ((RateLimiter.new (N : Int) W).allow ip t0).2 ip rest).2.limit - 1,
        t + (allowRun ((RateLimiter.new (N : Int) W).allow ip t0).2 ip rest).2.window) =
      (true, (N : Int) - 1, t + W)
    rw [hfl, hlimNew, hfw, hwin]

/-- Witness for C2 with `N = 2`, `W = 10`: calls at 0, 3, 10 give
(true, 1), (true, 0), (false, 0) with reset time 10, and a call at 11 is
admitted again with remaining 1 and reset time 21. -/
theorem admission_window_witness :
    (allowRun (RateLimiter.new 2 10) "k" [0, 3, 10]).1 =
      [(true, 1, 10), (true, 0, 10), (false, 0, 10)] ∧
    ((allowRun (RateLimiter.new 2 10) "k" [0, 3, 10]).2.allow "k" 11).1 =
      (true, 1, 21) := by
  have h := admission_window 2 10 0 11 [3, 10] "k" (by decide) (by decide)
    (by decide) (by decide) (by decide)
  exact ⟨h.1.trans (by decide), h.2.trans (by decide)⟩

/-- `allow` preserves non-negative budgets when the configured limit is
non-negative. -/
theorem allow_nonneg {rl : RateLimiter} (ip : String) (now : Int)
    (hL : 0 ≤ rl.limit) (h : rl.Nonneg) : ((rl.allow ip now).2).Nonneg := by
  have hcl : 0 ≤ (resetIfExpired rl.window rl.limit now
      (getOrCreate (rl.clients ip) rl.limit now)).tokens := by
    unfold resetIfExpired getOrCreate
    cases hx : rl.clients ip with
    | none => split <;> exact hL
    | some c =>
      split
      · exact hL
      · exact h ip c hx
  intro k c hk
  unfold RateLimiter.allow RateLimiter.allowClient at hk
  split at hk <;> simp only at hk <;> by_cases hkip : k = ip
  · rw [if_pos hkip] at hk
    simp only [Option.some.injEq] at hk
    subst hk
    simp only
    omega
  · rw [if_neg hkip] at hk
    exact h k c hk
  · rw [if_pos hkip] at hk
    simp only [Option.some.injEq] at hk
    subst hk
    exact hcl
  · rw [if_neg hkip] at hk
    exact h k c hk

/-- The cleanup sweep only deletes records, so it preserves
non-negative budgets. -/
theorem cleanup_nonneg {rl : RateLimiter} (now : Int) (h : rl.Nonneg) :
    (rl.cleanup now).Nonneg := by
  intro k c hk
  unfold RateLimiter.cleanup at hk
  simp only at hk
  cases hx : rl.clients k with
  | none => rw [hx] at hk; exact Option.noConfusion hk
  | some d =>
    rw [hx] at hk
    simp only at hk
    split at hk
    · exact Option.noConfusion hk
    · simp only [Option.some.injEq] at hk
      subst hk
      exact h k _ hx

/-- `allow` does not change the configuration. -/
theorem allow_config (rl : RateLimiter) (ip : String) (now : Int) :
    ((rl.allow ip now).2).limit = rl.limit ∧
    ((rl.allow ip now).2).window = rl.window := by
  unfold RateLimiter.allow RateLimiter.allowClient
  split <;> exact ⟨rfl, rfl⟩

/-- A run of operations preserves non-negative budgets and the
configuration. -/
theorem run_nonneg (ops : List RLOp) :
    ∀ rl : RateLimiter, 0 ≤ rl.limit → rl.Nonneg →
      (rl.run ops).Nonneg ∧ (rl.run ops).limit = rl.limit ∧
      (rl.run ops).window = rl.window := by
  induction ops with
  | nil => exact fun rl _ h => ⟨h, rfl, rfl⟩
  | cons op ops ih =>
    intro rl hL h
    show ((rl.step op).run ops).Nonneg ∧ _ ∧ _
    cases op with
    | req ip now =>
      have hcfg := allow_config rl ip now
      have := ih ((rl.allow ip now).2) (hcfg.1 ▸ hL) (allow_nonneg ip now hL h)
      exact ⟨this.1, this.2.1.trans hcfg.1, this.2.2.trans hcfg.2⟩
    | sweep now =>
      have := ih (rl.cleanup now) hL (cleanup_nonneg now h)
      exact ⟨this.1, this.2.1, this.2.2⟩

/-- During an `allow` call, an existing client's budget can only grow if
the lazy reset fired, i.e. only when `now - lastReset > window`. -/
theorem allow_increase {rl : RateLimiter} {ip : String} {now : Int}
    {ca cb : Client} (ha : rl.clients ip = some ca)
    (hb : ((rl.allow ip now).2).clients ip = some cb)
    (hinc : ca.tokens < cb.tokens) : now - ca.lastReset > rl.window := by
  by_contra hcon
  push_neg at hcon
  rw [allow_existing ha hcon] at hb
  unfold RateLimiter.allowClient at hb
  split at hb
  · have hb2 : (if ip = ip then some (⟨ca.tokens - 1, ca.lastReset⟩ : Client)
        else rl.clients ip) = some cb := hb
    rw [if_pos rfl] at hb2
    simp only [Option.some.injEq] at hb2
    rw [← hb2] at hinc
    have hred : (Client.mk (ca.tokens - 1) ca.lastReset).tokens = ca.tokens - 1 := rfl
    rw [hred] at hinc
    omega
  · have hb2 : (if ip = ip then some ca else rl.clients ip) = some cb := hb
    rw [if_pos rfl] at hb2
    simp only [Option.some.injEq] at hb2
    rw [← hb2] at hinc
    omega

/-- C8: starting from a fresh limiter with non-negative limit `L` and
window `W`, after any sequence of `allow` calls and cleanup sweeps every
stored client budget is a non-negative integer; and at any reachable
state, an `allow` access that increases an existing client's budget (the
only way a budget is set back to the configured maximum) can happen only
when `now - window_start > W` at that access. -/
theorem budget_invariant (L W : Int) (ops : List RLOp) (k ip : String)
    (c ca cb : Client) (now : Int) (hL : 0 ≤ L) :
    (((RateLimiter.new L W).run ops).clients k = some c → 0 ≤ c.tokens) ∧
    (((RateLimiter.new L W).run ops).clients ip = some ca →
      ((((RateLimiter.new L W).run ops).allow ip now).2).clients ip = some cb →
      ca.tokens < cb.tokens → now - ca.lastReset > W) := by
  have hrun := run_nonneg ops (RateLimiter.new L W) hL
    (fun k c h => Option.noConfusion h)
  refine ⟨fun hc => hrun.1 k c hc, fun ha hb hinc => ?_⟩
  have := allow_increase ha hb hinc
  rwa [hrun.2.2] at this

/-- Witness for C8: limit 5, window 10, two admitted calls at times 0
and 1 leave the client at budget 3 (non-negative), and an access at time
20 that restores the budget (3 → 4 after the post-reset decrement)
indeed happens more than one window after the window start 0. -/
theorem budget_invariant_witness :
    (0 : Int) ≤ (Client.mk 3 0).tokens ∧
    (20 : Int) - (Client.mk 3 0).lastReset > 10 := by
  have h := budget_invariant 5 10 [RLOp.req "a" 0, RLOp.req "a" 1] "a" "a"
    (Client.mk 3 0) (Client.mk 3 0) (Client.mk 4 20) 20 (by decide)
  exact ⟨h.1 (by decide), h.2 (by decide) (by decide) (by decide)⟩

/-- C3 counterexample: a password with neither lowercase nor uppercase
letters ("12345678!") is reported as missing an UPPERCASE letter, not a
lowercase one — the code checks A-Z before a-z, contrary to the claimed
evaluation order. -/
theorem strength_order_counterexample :
    ValidatePasswordStrength "12345678!" ≠
      some "password must contain at least one lowercase letter" ∧
    ValidatePasswordStrength "12345678!" =
      some "password must contain at least one uppercase letter" :=
  ⟨by decide, by decide⟩

/-- C3 (amended): `ValidatePasswordStrength` evaluates its rules in
exactly this order, each short-circuiting: length in [8, 72]; contains
an uppercase letter A-Z; contains a lowercase letter a-z; contains a
digit; contains one of a fixed symbol set; not in the common-password
deny-list (case-insensitive).  For a password violating several rules
the reported error is the earliest in this order. -/
theorem strength_rule_order (p : String) :
    (p.utf8ByteSize < 8 →
      ValidatePasswordStrength p =
        some "password must be at least 8 characters long") ∧
    (8 ≤ p.utf8ByteSize → 72 < p.utf8ByteSize →
      ValidatePasswordStrength p =
        some "password too long: maximum 72 bytes") ∧
    (8 ≤ p.utf8ByteSize → p.utf8ByteSize ≤ 72 → containsUpper p = false →
      ValidatePasswordStrength p =
        some "password must contain at least one uppercase letter") ∧
    (8 ≤ p.utf8ByteSize → p.utf8ByteSize ≤ 72 → containsUpper p = true →
      containsLower p = false →
      ValidatePasswordStrength p =
        some "password must contain at least one lowercase letter") ∧
    (8 ≤ p.utf8ByteSize → p.utf8ByteSize ≤ 72 → containsUpper p = true →
      containsLower p = true → containsDigit p = false →
      ValidatePasswordStrength p =
        some "password must contain at least one number") ∧
    (8 ≤ p.utf8ByteSize → p.utf8ByteSize ≤ 72 → containsUpper p = true →
      containsLower p = true → containsDigit p = true →
      containsSpecial p = false →
      ValidatePasswordStrength p =
        some "password must contain at least one special character") ∧
    (8 ≤ p.utf8ByteSize → p.utf8ByteSize ≤ 72 → containsUpper p = true →
      containsLower p = true → containsDigit p = true →
      containsSpecial p = true → toLowerStr p ∈ commonPasswords →
      ValidatePasswordStrength p =
        some "password is too common, please choose a more unique password") ∧
    (8 ≤ p.utf8ByteSize → p.utf8ByteSize ≤ 72 → containsUpper p = true →
      containsLower p = true → containsDigit p = true →
      containsSpecial p = true → toLowerStr p ∉ commonPasswords →
      ValidatePasswordStrength p = none) := by
  refine ⟨fun h1 => ?_, fun h1 h2 => ?_, fun h1 h2 h3 => ?_,
    fun h1 h2 h3 h4 => ?_, fun h1 h2 h3 h4 h5 => ?_,
    fun h1 h2 h3 h4 h5 h6 => ?_, fun h1 h2 h3 h4 h5 h6 h7 => ?_,
    fun h1 h2 h3 h4 h5 h6 h7 => ?_⟩ <;>
  unfold ValidatePasswordStrength
  · rw [if_pos h1]
  · rw [if_neg (by omega), if_pos h2]
  · rw [if_neg (by omega), if_neg (by omega), if_pos (by simp [h3])]
  · rw [if_neg (by omega), if_neg (by omega), if_neg (by simp [h3]),
      if_pos (by simp [h4])]
  · rw [if_neg (by omega), if_neg (by omega), if_neg (by simp [h3]),
      if_neg (by simp [h4]), if_pos (by simp [h5])]
  · rw [if_neg (by omega), if_neg (by omega), if_neg (by simp [h3]),
      if_neg (by simp [h4]), if_neg (by simp [h5]), if_pos (by simp [h6])]
  · rw [if_neg (by omega), if_neg (by omega), if_neg (by simp [h3]),
      if_neg (by simp [h4]), if_neg (by simp [h5]), if_neg (by simp [h6]),
      if_pos h7]
  · rw [if_neg (by omega), if_neg (by omega), if_neg (by simp [h3]),
      if_neg (by simp [h4]), if_neg (by simp [h5]), if_neg (by simp [h6]),
      if_neg h7]

/-- Witness for the amended C3: a password with lowercase letters but no
uppercase letter fails on the uppercase rule. -/
theorem strength_rule_order_witness :
    ValidatePasswordStrength "abcdefgh" =
      some "password must contain at least one uppercase letter" :=
  (strength_rule_order "abcdefgh").2.2.1 (by decide) (by decide) (by decide)

/-- C4 (code bug): the `YearDay` comparison mishandles leap years.  An
applicant born 2008-03-01 (a leap year, so `YearDay = 61`) and
registering on their exact 18th birthday 2026-03-01 (`YearDay = 60`) is
rejected although the spec's correct age computation says they are 18;
conversely an applicant born 2006-12-31 registering on 2024-12-30 — one
day before their 18th birthday, but day 365 of a leap year — is
accepted although they are 17. -/
theorem age_check_leap_bug :
    validateRegistrationRequest c4req ⟨2026, 3, 1⟩ =
      some (.badRequest "you must be at least 18 years old to register") ∧
    spec_isAtLeast18 c4req.dateOfBirth ⟨2026, 3, 1⟩ = true ∧
    validateRegistrationRequest { c4req with dateOfBirth := ⟨2006, 12, 31⟩ }
      ⟨2024, 12, 30⟩ = none ∧
    spec_isAtLeast18 ⟨2006, 12, 31⟩ ⟨2024, 12, 30⟩ = false := by
  refine ⟨by decide, by decide, by decide, by decide⟩

/-- C5 counterexample: with an empty password, both the unknown-email
run and the wrong-password run fail with the bad-request error for the
missing field, not with the invalid-credentials error the claim
names (the empty password does not verify against the stored hash). -/
theorem login_empty_password_counterexample :
    Login svc0 storeEmpty "a@b.com" "" 0 =
      .error (.badRequest "password is required") ∧
    Login svc0 storeWithActive "a@b.com" "" 0 =
      .error (.badRequest "password is required") ∧
    ComparePasswords activeUser.passwordHash "" = false ∧
    AppError.badRequest "password is required" ≠
      .unauthorized "invalid email or password" ∧
    Login svc0 storeEmpty "" "x" 0 = .error (.badRequest "email is required") := by
  refine ⟨by decide, by decide, by decide, by decide, by decide⟩

/-- C5 (amended): for every non-empty email and non-empty password,
when no user record exists for the normalized email and when an active
record exists whose stored hash does not verify against the password,
`Login` fails with the identical invalid-credentials error in both
runs. -/
theorem login_enumeration_safe (s : AuthService) (st1 st2 : UserStore)
    (email password : String) (u : User) (n1 n2 : Int)
    (he : email ≠ "") (hp : password ≠ "")
    (h1 : st1.getByEmail (toLowerStr (trimSpace email)) = none)
    (h2 : st2.getByEmail (toLowerStr (trimSpace email)) = some u)
    (hactive : u.isActive = true)
    (hmismatch : ComparePasswords u.passwordHash password = false) :
    Login s st1 email password n1 =
      .error (.unauthorized "invalid email or password") ∧
    Login s st2 email password n2 =
      .error (.unauthorized "invalid email or password") := by
  constructor
  · unfold Login
    rw [if_neg he, if_neg hp, h1]
  · unfold Login
    rw [if_neg he, if_neg hp, h2]
    simp [hactive, hmismatch]

/-- Witness for the amended C5: the two runs on the concrete stores
fail with the same error. -/
theorem login_enumeration_safe_witness :
    Login svc0 storeEmpty "a@b.com" "Wrong1!" 0 =
      .error (.unauthorized "invalid email or password") ∧
    Login svc0 storeWithActive "a@b.com" "Wrong1!" 0 =
      .error (.unauthorized "invalid email or password") :=
  login_enumeration_safe svc0 storeEmpty storeWithActive "a@b.com" "Wrong1!"
    activeUser 0 0 (by decide) (by decide) (by decide) (by decide)
    (by decide) (by decide)

/-- C10 counterexample: for an inactive account, an empty supplied
password is answered with the missing-field bad-request error, not the
inactive-account error the claim predicts for every password. -/
theorem login_inactive_empty_password_counterexample :
    Login svc0 storeWithInactive "a@b.com" "" 0 =
      .error (.badRequest "password is required") ∧
    AppError.badRequest "password is required" ≠
      .forbidden "account is inactive" := by
  refine ⟨by decide, by decide⟩

/-- C10 (amended): for every non-empty email with an inactive user
record and every non-empty supplied password, matching or not, `Login`
fails with the inactive-account error — the active check runs before
password verification — and that error differs from the
invalid-credentials error for unknown emails. -/
theorem login_inactive_before_password (s : AuthService) (st : UserStore)
    (email password : String) (u : User) (n : Int)
    (he : email ≠ "") (hp : password ≠ "")
    (hu : st.getByEmail (toLowerStr (trimSpace email)) = some u)
    (hinactive : u.isActive = false) :
    Login s st email password n = .error (.forbidden "account is inactive") ∧
    AppError.forbidden "account is inactive" ≠
      .unauthorized "invalid email or password" := by
  refine ⟨?_, by decide⟩
  unfold Login
  rw [if_neg he, if_neg hp, hu]
  simp [hinactive]

/-- Witness for the amended C10: the inactive account gets the same
inactive-account failure for the matching and a non-matching
password. -/
theorem login_inactive_before_password_witness :
    Login svc0 storeWithInactive "a@b.com" "Correct1!" 0 =
      .error (.forbidden "account is inactive") ∧
    Login svc0 storeWithInactive "a@b.com" "Wrong1!" 0 =
      .error (.forbidden "account is inactive") :=
  ⟨(login_inactive_before_password svc0 storeWithInactive "a@b.com" "Correct1!"
      inactiveUser 0 (by decide) (by decide) (by decide) (by decide)).1,
   (login_inactive_before_password svc0 storeWithInactive "a@b.com" "Wrong1!"
      inactiveUser 0 (by decide) (by decide) (by decide) (by decide)).1⟩

/-- C6: a signature/expiry-valid token of class "access" presented to
`RefreshToken` fails with the invalid-token-type error; a valid
refresh-class token whose subject is re-loaded as deactivated fails
with the inactive-account error; and every success carries a newly
issued token of class "access" only (the response type has no
refresh-token field — refresh tokens are not rotated). -/
theorem refresh_token_flow (s : AuthService) (store : UserStore)
    (tok : SignedToken) (now : Int) (claims : TokenClaims) (uid : String)
    (user : User) (resp : RefreshTokenResponse) :
    (ValidateToken tok s.jwtSecret now = .ok claims →
      claims.tokenType = "access" →
      RefreshToken s store (some tok) now =
        .error (.unauthorized "invalid token type")) ∧
    (ValidateToken tok s.jwtSecret now = .ok claims →
      claims.tokenType = "refresh" → uuidParse claims.userID = some uid →
      store.getById uid = some user → user.isActive = false →
      RefreshToken s store (some tok) now =
        .error (.forbidden "account is inactive")) ∧
    (RefreshToken s store (some tok) now = .ok resp →
      resp.accessToken.claims.tokenType = "access") := by
  refine ⟨fun hv ht => ?_, fun hv ht hp hg hi => ?_, fun h => ?_⟩
  · have hne : claims.tokenType ≠ "refresh" := by rw [ht]; decide
    simp only [RefreshToken, hv]
    rw [if_pos hne]
  · simp only [RefreshToken, hv, hp, hg]
    simp [ht, hi]
  · unfold RefreshToken at h
    repeat' split at h
    all_goals try exact Except.noConfusion h
    simp only [Except.ok.injEq] at h
    subst h
    rename_i atk heq
    rw [generateToken_ok_eq heq]
    rfl

/-- Witness for C6: the access token is rejected with the wrong-type
error, the refresh token of the deactivated subject with the
inactive-account error, and the successful refresh for the active
subject returns an access-class token. -/
theorem refresh_token_flow_witness :
    RefreshToken svc0 storeWithActive (some c6accessTok) 0 =
      .error (.unauthorized "invalid token type") ∧
    RefreshToken svc0 storeWithInactive (some c6refreshTok) 0 =
      .error (.forbidden "account is inactive") ∧
    c6resp.accessToken.claims.tokenType = "access" :=
  ⟨(refresh_token_flow svc0 storeWithActive c6accessTok 0
      ⟨uuidSample, "a@b.com", "access"⟩ uuidSample activeUser c6resp).1
      (by decide) (by decide),
   (refresh_token_flow svc0 storeWithInactive c6refreshTok 0
      ⟨uuidSample, "a@b.com", "refresh"⟩ uuidSample inactiveUser c6resp).2.1
      (by decide) (by decide) (by decide) (by decide) (by decide),
   (refresh_token_flow svc0 storeWithActive c6refreshTok 0
      ⟨uuidSample, "a@b.com", "refresh"⟩ uuidSample activeUser c6resp).2.2
      (by decide)⟩

/-- C9: every user record a success of `Register`, `Login` or
`ValidateAccessToken` hands back has the password-hash field emptied:
no success result carries the stored hash. -/
theorem sanitized_user (s : AuthService) (store : UserStore)
    (req : RegisterRequest) (today : Date) (now : Int) (salt : Nat)
    (newId email password : String) (tok : SignedToken)
    (u1 u2 : User) (r : LoginResponse) :
    (Register s store req today now salt newId = .ok u1 →
      u1.passwordHash = .empty) ∧
    (Login s store email password now = .ok r →
      r.user.passwordHash = .empty) ∧
    (ValidateAccessToken s store (some tok) now = .ok u2 →
      u2.passwordHash = .empty) := by
  refine ⟨fun h => ?_, fun h => ?_, fun h => ?_⟩
  · unfold Register at h
    repeat' split at h
    all_goals try exact Except.noConfusion h
    simp only [Except.ok.injEq] at h
    subst h
    rfl
  · unfold Login at h
    repeat' split at h
    all_goals try exact Except.noConfusion h
    simp only [Except.ok.injEq] at h
    subst h
    rfl
  · unfold ValidateAccessToken at h
    repeat' split at h
    all_goals try exact Except.noConfusion h
    simp only [Except.ok.injEq] at h
    subst h
    rfl

/-- Witness for C9: concrete successful `Register`, `Login` and
`ValidateAccessToken` runs all hand back a record with an emptied
password hash. -/
theorem sanitized_user_witness :
    c9regUser.passwordHash = PasswordHash.empty ∧
    c9loginResp.user.passwordHash = PasswordHash.empty ∧
    c9valUser.passwordHash = PasswordHash.empty :=
  ⟨(sanitized_user svc0 storeEmpty c9req ⟨2026, 1, 2⟩ 0 7 uuidSample
      "a@b.com" "Correct1!" c6accessTok c9regUser c9valUser c9loginResp).1
      (by decide),
   (sanitized_user svc0 storeWithActive c9req ⟨2026, 1, 2⟩ 0 7 uuidSample
      "a@b.com" "Correct1!" c6accessTok c9regUser c9valUser c9loginResp).2.1
      (by decide),
   (sanitized_user svc0 storeWithActive c9req ⟨2026, 1, 2⟩ 0 7 uuidSample
      "a@b.com" "Correct1!" c6accessTok c9regUser c9valUser c9loginResp).2.2
      (by decide)⟩
